import Mathlib

/-!
Shallow embedding of the metadata package assembly and deployment pipeline of
the salesforce-mcp server (src/salesforcemcp/sfdc_client.py together with the
tool-facing wrappers in src/salesforcemcp/implementations.py).

Modelling conventions:
* Python strings are lists of characters (`Str`); `pyReplace` models
  `str.replace` for the non-empty literal patterns the code uses.
* The local filesystem is an explicit record of files and directories that the
  build functions thread through; paths are component lists relative to the
  module's `BASE_PATH`.
* Fallible steps return `Except Str` carrying the (abbreviated) text of the
  Python exception; a caught-and-suppressed exception is reflected in the
  result type of the corresponding wrapper.
-/

set_option maxRecDepth 4000

namespace SfdcMcp

/-- Python strings are modelled as lists of characters. -/
abbrev Str := List Char

/-- Shorthand turning a Lean string literal into the character-list model. -/
def S (s : String) : Str := s.toList

/-- Worker for `pyReplace`.  The counter records how many characters of an
already-matched pattern occurrence still have to be consumed without being
copied to the output (this keeps the recursion structural on the string). -/
def pyReplaceAux (pat rep : Str) : Nat → Str → Str
  | _, [] => []
  | Nat.succ k, _ :: rest => pyReplaceAux pat rep k rest
  | 0, c :: rest =>
    if pat ≠ [] ∧ pat.isPrefixOf (c :: rest) then
      rep ++ pyReplaceAux pat rep (pat.length - 1) rest
    else
      c :: pyReplaceAux pat rep 0 rest

/-- Model of Python `s.replace(pat, rep)`: every non-overlapping occurrence of
`pat` is replaced left to right and the replacement text is not rescanned.
(Python's special treatment of an empty pattern is not modelled; every pattern
the embedded code passes to `replace` is a non-empty literal.) -/
def pyReplace (pat rep s : Str) : Str := pyReplaceAux pat rep 0 s

/-- Replacing the single character `c` by text that avoids `c` leaves no
occurrence of `c` in the result. -/
theorem not_mem_pyReplace_single (c : Char) (rep : Str) (hc : c ∉ rep) (s : Str) :
    c ∉ pyReplace [c] rep s := by
  unfold pyReplace
  induction s with
  | nil => simp [pyReplaceAux]
  | cons d rest ih =>
    by_cases hdc : c = d
    · subst hdc
      have : pyReplaceAux [c] rep 0 (c :: rest) = rep ++ pyReplaceAux [c] rep 0 rest := by
        simp [pyReplaceAux, List.isPrefixOf]
      rw [this]
      simp only [List.mem_append]
      rintro (h | h)
      · exact hc h
      · exact ih h
    · have : pyReplaceAux [c] rep 0 (d :: rest) = d :: pyReplaceAux [c] rep 0 rest := by
        have : ¬ ([c].isPrefixOf (d :: rest)) := by
          simp [List.isPrefixOf, hdc]
        simp [pyReplaceAux, this]
      rw [this]
      simp only [List.mem_cons]
      rintro (h | h)
      · exact hdc h
      · exact ih h

/-- If the head character of the pattern does not occur in the string, the
replacement is the identity. -/
theorem pyReplace_eq_self_of_head_not_mem (c : Char) (p rep : Str) (s : Str)
    (hs : c ∉ s) : pyReplace (c :: p) rep s = s := by
  unfold pyReplace
  induction s with
  | nil => simp [pyReplaceAux]
  | cons d rest ih =>
    have hdc : c ≠ d := fun h => hs (h ▸ List.mem_cons_self d rest)
    have hrest : c ∉ rest := fun h => hs (List.mem_cons_of_mem d h)
    have hpre : ¬ ((c :: p).isPrefixOf (d :: rest)) := by
      simp [List.isPrefixOf, hdc]
    simp [pyReplaceAux, hpre]
    exact ih hrest

/-- The Einstein outcome label as computed by the code:
`outcome_field.replace("_", " ").replace("__c", "")`. -/
def outcomeLabel (s : Str) : Str :=
  pyReplace (S "__c") (S "") (pyReplace (S "_") (S " ") s)

/-- The second `replace` in `outcomeLabel` never fires: after all underscores
were turned into spaces, no occurrence of `__c` can remain. -/
theorem outcomeLabel_eq_first_replace (s : Str) :
    outcomeLabel s = pyReplace (S "_") (S " ") s := by
  unfold outcomeLabel
  have hno : '_' ∉ pyReplace (S "_") (S " ") s := by
    have : (S "_") = ['_'] := rfl
    rw [this]
    exact not_mem_pyReplace_single '_' (S " ") (by decide) s
  have : (S "__c") = '_' :: S "_c" := rfl
  rw [this]
  exact pyReplace_eq_self_of_head_not_mem '_' (S "_c") (S "") _ hno

/-- A run of `n` spaces, as they appear inside the literal template strings. -/
def sp (n : Nat) : Str := List.replicate n ' '

/-- Python `str(b).lower()` for a boolean. -/
def pyBoolLower (b : Bool) : Str := if b then S "true" else S "false"

/-- A field description as handed to `create_metadata_package` inside
`json_obj["fields"]`.  Every slot is optional: `none` models an absent
dictionary key, so the `field["..."]` accesses of the code raise `KeyError`
(modelled by `getKey`) while the `field.get("...", default)` accesses fall
back to their default. -/
structure FieldDict where
  label : Option Str := none
  type : Option Str := none
  api_name : Option Str := none
  defaultValue : Option Bool := none
  referenceTo : Option Str := none
  relationshipLabel : Option Str := none
  relationshipName : Option Str := none
  picklist_values : Option (List Str) := none
deriving DecidableEq

/-- Python `d["k"]`: the value when the key is present, `KeyError` otherwise. -/
def getKey (v : Option α) (k : String) : Except Str α :=
  match v with
  | some x => .ok x
  | none => .error (S ("KeyError: " ++ k))

/-- The `Text` branch of the field-type dispatch. -/
def textTypeDef : Str := S "<type>Text</type>\n" ++ sp 20 ++ S "<length>100</length>"

/-- The `URL` branch of the field-type dispatch. -/
def urlTypeDef : Str := S "<type>Url</type>"

/-- The `Checkbox` branch of the field-type dispatch. -/
def checkboxTypeDef (default_val : Bool) : Str :=
  S "<type>Checkbox</type>\n" ++ sp 20 ++ S "<defaultValue>" ++ pyBoolLower default_val
    ++ S "</defaultValue>"

/-- The `Lookup` branch of the field-type dispatch: `relationshipLabel` and
`relationshipName` lines are appended only when the strings are truthy. -/
def lookupTypeDef (reference_to relationship_label relationship_name : Str) : Str :=
  S "<type>Lookup</type>\n" ++ sp 20 ++ S "<referenceTo>" ++ reference_to
    ++ S "</referenceTo>"
  ++ (if relationship_label ≠ [] then
        S "\n" ++ sp 20 ++ S "<relationshipLabel>" ++ relationship_label
          ++ S "</relationshipLabel>"
      else [])
  ++ (if relationship_name ≠ [] then
        S "\n" ++ sp 20 ++ S "<relationshipName>" ++ relationship_name
          ++ S "</relationshipName>"
      else [])

/-- One `<value>` block of the picklist value set, rendered for one entry of
`picklist_values` (both `fullName` and `label` are the raw value). -/
def valueBlock (v : Str) : Str :=
  S "<value>\n" ++ sp 36 ++ S "<fullName>" ++ v ++ S "</fullName>" ++ S "\n" ++ sp 36
    ++ S "<default>" ++ S "false" ++ S "</default>" ++ S "\n" ++ sp 36
    ++ S "<label>" ++ v ++ S "</label>" ++ S "\n" ++ sp 32 ++ S "</value>\n" ++ sp 32

/-- The `Picklist` branch of the field-type dispatch. -/
def picklistTypeDef (vs : List Str) : Str :=
  S "\n" ++ sp 24 ++ S "<type>Picklist</type>\n" ++ sp 24 ++ S "<valueSet>\n" ++ sp 28
    ++ S "<restricted>" ++ S "true" ++ S "</restricted>" ++ S "\n" ++ sp 28
    ++ S "<valueSetDefinition>\n" ++ sp 32
    ++ S "<sorted>" ++ S "false" ++ S "</sorted>" ++ S "\n" ++ sp 32
    ++ (vs.map valueBlock).flatten ++ S "\n"
    ++ sp 28 ++ S "</valueSetDefinition>\n" ++ sp 24 ++ S "</valueSet>\n" ++ sp 24

/-- The fallback branch of the field-type dispatch. -/
def numberTypeDef : Str :=
  S "<precision>18</precision>" ++ S "\n" ++ sp 24 ++ S "<scale>0</scale>" ++ S "\n" ++ sp 24
    ++ S "<type>Number</type>"

/-- The field-type dispatch of `create_metadata_package` (the `type_def`
computation), applied to the already-extracted `f_type`. -/
def encode_type_def (f_type : Str) (field : FieldDict) : Except Str Str :=
  if f_type = S "Text" then .ok textTypeDef
  else if f_type = S "URL" then .ok urlTypeDef
  else if f_type = S "Checkbox" then .ok (checkboxTypeDef (field.defaultValue.getD false))
  else if f_type = S "Lookup" then
    .ok (lookupTypeDef (field.referenceTo.getD []) (field.relationshipLabel.getD [])
      (field.relationshipName.getD []))
  else if f_type = S "Picklist" then
    match field.picklist_values with
    | some vs => .ok (picklistTypeDef vs)
    | none => .error (S "KeyError: picklist_values")
  else .ok numberTypeDef

/-- One iteration of the field loop of `create_metadata_package`: extract
`label`, `type` and `api_name` (in that order, raising `KeyError` when
absent), encode the type fragment, and substitute all three into the field
template.  Returns the field api name together with the rendered fragment. -/
def processField (field_tmpl : Str) (field : FieldDict) : Except Str (Str × Str) := do
  let f_name ← getKey field.label "label"
  let f_type ← getKey field.type "type"
  let f_api_name ← getKey field.api_name "api_name"
  let type_def ← encode_type_def f_type field
  .ok (f_api_name,
    pyReplace (S "##type##") type_def
      (pyReplace (S "##name##") f_name
        (pyReplace (S "##api_name##") f_api_name field_tmpl)))

/-- Spec-side rendering of one picklist `<value>` block with explicit
`fullName`, `label` and `default` slots (following the spec's description of
the value-set block). -/
def specValueBlock (fullName lbl : Str) (dflt : Bool) : Str :=
  S "<value>\n" ++ sp 36 ++ S "<fullName>" ++ fullName ++ S "</fullName>" ++ S "\n" ++ sp 36
    ++ S "<default>" ++ pyBoolLower dflt ++ S "</default>" ++ S "\n" ++ sp 36
    ++ S "<label>" ++ lbl ++ S "</label>" ++ S "\n" ++ sp 32 ++ S "</value>\n" ++ sp 32

/-- Spec-side rendering of the whole picklist fragment with explicit
`restricted` and `sorted` slots and an explicit list of value blocks. -/
def specPicklistFragment (restricted sorted : Bool) (blocks : List Str) : Str :=
  S "\n" ++ sp 24 ++ S "<type>Picklist</type>\n" ++ sp 24 ++ S "<valueSet>\n" ++ sp 28
    ++ S "<restricted>" ++ pyBoolLower restricted ++ S "</restricted>" ++ S "\n" ++ sp 28
    ++ S "<valueSetDefinition>\n" ++ sp 32
    ++ S "<sorted>" ++ pyBoolLower sorted ++ S "</sorted>" ++ S "\n" ++ sp 32
    ++ blocks.flatten ++ S "\n" ++ sp 28
    ++ S "</valueSetDefinition>\n" ++ sp 24 ++ S "</valueSet>\n" ++ sp 24

/-- A member of a list of strings is an infix of their concatenation. -/
theorem infix_join_of_mem {x : Str} {l : List Str} (h : x ∈ l) : x <:+: l.flatten := by
  induction l with
  | nil => cases h
  | cons y ys ih =>
    rcases List.mem_cons.mp h with h | h
    · exact ⟨[], ys.flatten, by simp [h]⟩
    · obtain ⟨s, t, hst⟩ := ih h
      exact ⟨y ++ s, t, by simp [← hst, List.append_assoc]⟩

/-- Unfolding the Picklist branch of the dispatch. -/
theorem encode_type_def_picklist (field : FieldDict) :
    encode_type_def (S "Picklist") field
      = match field.picklist_values with
        | some vs => .ok (picklistTypeDef vs)
        | none => .error (S "KeyError: picklist_values") := rfl

/-- The joined value blocks are an infix of the whole picklist fragment. -/
theorem flatten_infix_picklistTypeDef (vs : List Str) :
    (vs.map valueBlock).flatten <:+: picklistTypeDef vs := by
  refine ⟨S "\n" ++ sp 24 ++ S "<type>Picklist</type>\n" ++ sp 24 ++ S "<valueSet>\n"
    ++ sp 28 ++ S "<restricted>" ++ S "true" ++ S "</restricted>" ++ S "\n" ++ sp 28
    ++ S "<valueSetDefinition>\n" ++ sp 32 ++ S "<sorted>" ++ S "false" ++ S "</sorted>"
    ++ S "\n" ++ sp 32,
    S "\n" ++ sp 28 ++ S "</valueSetDefinition>\n" ++ sp 24 ++ S "</valueSet>\n" ++ sp 24, ?_⟩
  simp only [picklistTypeDef, List.append_assoc]

/-- The fullName tag around the raw value is an infix of its value block. -/
theorem fullName_infix_valueBlock (v : Str) :
    (S "<fullName>" ++ v ++ S "</fullName>") <:+: valueBlock v := by
  refine ⟨S "<value>\n" ++ sp 36,
    S "\n" ++ sp 36 ++ S "<default>" ++ S "false" ++ S "</default>" ++ S "\n" ++ sp 36
      ++ S "<label>" ++ v ++ S "</label>" ++ S "\n" ++ sp 32 ++ S "</value>\n" ++ sp 32, ?_⟩
  simp only [valueBlock, List.append_assoc]

/-- The label tag around the raw value is an infix of its value block. -/
theorem label_infix_valueBlock (v : Str) :
    (S "<label>" ++ v ++ S "</label>") <:+: valueBlock v := by
  refine ⟨S "<value>\n" ++ sp 36 ++ S "<fullName>" ++ v ++ S "</fullName>" ++ S "\n" ++ sp 36
      ++ S "<default>" ++ S "false" ++ S "</default>" ++ S "\n" ++ sp 36,
    S "\n" ++ sp 32 ++ S "</value>\n" ++ sp 32, ?_⟩
  simp only [valueBlock, List.append_assoc]

/-- The default tag of a value block is the literal false. -/
theorem default_infix_valueBlock (v : Str) :
    (S "<default>false</default>") <:+: valueBlock v := by
  have hm : S "<default>false</default>" = S "<default>" ++ S "false" ++ S "</default>" := rfl
  rw [hm]
  refine ⟨S "<value>\n" ++ sp 36 ++ S "<fullName>" ++ v ++ S "</fullName>" ++ S "\n" ++ sp 36,
    S "\n" ++ sp 36 ++ S "<label>" ++ v ++ S "</label>" ++ S "\n" ++ sp 32 ++ S "</value>\n"
      ++ sp 32, ?_⟩
  simp only [valueBlock, List.append_assoc]

/-- The value block of a member of the value list is an infix of the whole
picklist fragment. -/
theorem valueBlock_infix_picklistTypeDef {v : Str} {vs : List Str} (h : v ∈ vs) :
    valueBlock v <:+: picklistTypeDef vs :=
  (infix_join_of_mem (List.mem_map_of_mem valueBlock h)).trans
    (flatten_infix_picklistTypeDef vs)

/-- C3: for every Picklist field with value list `vs`, the encoder emits a
restricted value set whose definition is unsorted and consists of exactly one
value block per entry of `vs` in input order, each block carrying the raw
value as both `fullName` and `label` and the literal `false` as `default`. -/
theorem claim_picklist_value_set (field : FieldDict) (vs : List Str)
    (hpv : field.picklist_values = some vs) :
    encode_type_def (S "Picklist") field
        = .ok (specPicklistFragment true false (vs.map (fun v => specValueBlock v v false)))
      ∧ (∀ v ∈ vs,
          ((S "<fullName>" ++ v ++ S "</fullName>") <:+: picklistTypeDef vs)
          ∧ ((S "<label>" ++ v ++ S "</label>") <:+: picklistTypeDef vs)
          ∧ ((S "<default>false</default>") <:+: picklistTypeDef vs))
      ∧ ((S "<restricted>true</restricted>") <:+: picklistTypeDef vs)
      ∧ ((S "<sorted>false</sorted>") <:+: picklistTypeDef vs) := by
  refine ⟨?_, ?_, ?_, ?_⟩
  · rw [encode_type_def_picklist, hpv]
    rfl
  · intro v hv
    exact ⟨(fullName_infix_valueBlock v).trans (valueBlock_infix_picklistTypeDef hv),
      (label_infix_valueBlock v).trans (valueBlock_infix_picklistTypeDef hv),
      (default_infix_valueBlock v).trans (valueBlock_infix_picklistTypeDef hv)⟩
  · have hm : S "<restricted>true</restricted>"
        = S "<restricted>" ++ S "true" ++ S "</restricted>" := rfl
    rw [hm]
    exact ⟨S "\n" ++ sp 24 ++ S "<type>Picklist</type>\n" ++ sp 24 ++ S "<valueSet>\n"
      ++ sp 28,
      S "\n" ++ sp 28 ++ S "<valueSetDefinition>\n" ++ sp 32 ++ S "<sorted>" ++ S "false"
        ++ S "</sorted>" ++ S "\n" ++ sp 32 ++ (vs.map valueBlock).flatten ++ S "\n" ++ sp 28
        ++ S "</valueSetDefinition>\n" ++ sp 24 ++ S "</valueSet>\n" ++ sp 24,
      by simp only [picklistTypeDef, List.append_assoc]⟩
  · have hm : S "<sorted>false</sorted>" = S "<sorted>" ++ S "false" ++ S "</sorted>" := rfl
    rw [hm]
    exact ⟨S "\n" ++ sp 24 ++ S "<type>Picklist</type>\n" ++ sp 24 ++ S "<valueSet>\n"
      ++ sp 28 ++ S "<restricted>" ++ S "true" ++ S "</restricted>" ++ S "\n" ++ sp 28
      ++ S "<valueSetDefinition>\n" ++ sp 32,
      S "\n" ++ sp 32 ++ (vs.map valueBlock).flatten ++ S "\n" ++ sp 28
        ++ S "</valueSetDefinition>\n" ++ sp 24 ++ S "</valueSet>\n" ++ sp 24,
      by simp only [picklistTypeDef, List.append_assoc]⟩

/-- Witness for C3 at the spec's concrete example, a Status picklist with
values Open and Closed. -/
theorem claim_picklist_value_set_witness :
    ((S "<fullName>" ++ S "Open" ++ S "</fullName>") <:+: picklistTypeDef [S "Open", S "Closed"])
    ∧ ((S "<label>" ++ S "Closed" ++ S "</label>") <:+: picklistTypeDef [S "Open", S "Closed"])
    ∧ ((S "<sorted>false</sorted>") <:+: picklistTypeDef [S "Open", S "Closed"]) :=
  ⟨((claim_picklist_value_set { picklist_values := some [S "Open", S "Closed"] }
      [S "Open", S "Closed"] rfl).2.1 (S "Open") (by simp)).1,
   ((claim_picklist_value_set { picklist_values := some [S "Open", S "Closed"] }
      [S "Open", S "Closed"] rfl).2.1 (S "Closed") (by simp)).2.1,
   (claim_picklist_value_set { picklist_values := some [S "Open", S "Closed"] }
      [S "Open", S "Closed"] rfl).2.2.2⟩

/-- C4 (amended): for every field whose present `type` is none of Text, URL,
Checkbox, Lookup, Picklist, the encoder falls back to the Number fragment
with precision 18 and scale 0. -/
theorem claim_unknown_type_number_fallback (f_type : Str) (field : FieldDict)
    (h1 : f_type ≠ S "Text") (h2 : f_type ≠ S "URL") (h3 : f_type ≠ S "Checkbox")
    (h4 : f_type ≠ S "Lookup") (h5 : f_type ≠ S "Picklist") :
    encode_type_def f_type field = .ok numberTypeDef
    ∧ ((S "<precision>18</precision>") <:+: numberTypeDef)
    ∧ ((S "<scale>0</scale>") <:+: numberTypeDef)
    ∧ ((S "<type>Number</type>") <:+: numberTypeDef) := by
  refine ⟨by simp [encode_type_def, h1, h2, h3, h4, h5], ?_, ?_, ?_⟩
  · exact ⟨[], S "\n" ++ sp 24 ++ S "<scale>0</scale>" ++ S "\n" ++ sp 24
      ++ S "<type>Number</type>",
      by simp only [numberTypeDef, List.append_assoc, List.nil_append]⟩
  · exact ⟨S "<precision>18</precision>" ++ S "\n" ++ sp 24,
      S "\n" ++ sp 24 ++ S "<type>Number</type>",
      by simp only [numberTypeDef, List.append_assoc]⟩
  · exact ⟨S "<precision>18</precision>" ++ S "\n" ++ sp 24 ++ S "<scale>0</scale>" ++ S "\n"
      ++ sp 24, [],
      by simp only [numberTypeDef, List.append_assoc, List.append_nil]⟩

/-- Witness for C4 at the type LongText (present but outside the known set). -/
theorem claim_unknown_type_number_fallback_witness :
    encode_type_def (S "LongText") {} = .ok numberTypeDef
    ∧ ((S "<precision>18</precision>") <:+: numberTypeDef) :=
  ⟨(claim_unknown_type_number_fallback (S "LongText") {} (by decide) (by decide)
      (by decide) (by decide) (by decide)).1,
   (claim_unknown_type_number_fallback (S "LongText") {} (by decide) (by decide)
      (by decide) (by decide) (by decide)).2.1⟩

/-- C4 counterexample: a field whose `type` key is absent does not produce a
Number fragment; the per-field processing raises `KeyError` instead (which
the surrounding build then suppresses). -/
theorem claim_unset_type_counterexample :
    processField (S "##type##") { label := some (S "Amount"), api_name := some (S "Amount__c") }
      = .error (S "KeyError: type") := rfl

/-- JSON values, modelling the Python dictionaries handed to `json.dumps`
(dictionary key order is insertion order, as in Python 3.7+). -/
inductive JVal where
  | null
  | bool (b : Bool)
  | num (n : Int)
  | str (s : Str)
  | arr (xs : List JVal)
  | obj (kvs : List (String × JVal))

/-- A field description as supplied inside `json_obj["fields"]` of an Einstein
model request; `none` models an absent dictionary key. -/
structure ModelFieldDict where
  field_name : Option Str := none
  field_label : Option Str := none
  field_type : Option Str := none
  data_type : Option Str := none
  ignored : Option Bool := none
deriving DecidableEq

/-- The outcome entry of the Einstein fields array (always the Text shape,
with the label derived by `outcomeLabel`). -/
def outcomeFieldObj (outcome : Str) : List (String × JVal) :=
  [("type", .str (S "Text")),
   ("balanced", .bool false),
   ("dataType", .str (S "Categorical")),
   ("highCardinality", .bool false),
   ("ignored", .bool false),
   ("includeOther", .bool true),
   ("label", .str (outcomeLabel outcome)),
   ("name", .str outcome),
   ("ordering", .str (S "Occurrence")),
   ("sensitive", .bool false),
   ("source", .null),
   ("values", .arr [])]

/-- The Text shape for a declared model field. -/
def textFieldObj (data_type : Str) (ignored : Bool) (field_label field_name : Str) :
    List (String × JVal) :=
  [("type", .str (S "Text")),
   ("balanced", .bool false),
   ("dataType", .str data_type),
   ("highCardinality", .bool false),
   ("ignored", .bool ignored),
   ("includeOther", .bool true),
   ("label", .str field_label),
   ("name", .str field_name),
   ("ordering", .str (S "Occurrence")),
   ("sensitive", .bool false),
   ("source", .null),
   ("values", .arr [])]

/-- The structurally distinct Number shape for a declared model field. -/
def numberFieldObj (ignored : Bool) (field_label field_name : Str) :
    List (String × JVal) :=
  [("type", .str (S "Number")),
   ("bucketingStrategy", .obj [("type", .str (S "Percentile")), ("numberOfBuckets", .num 10)]),
   ("highCardinality", .null),
   ("ignored", .bool ignored),
   ("label", .str field_label),
   ("name", .str field_name),
   ("sensitive", .bool false),
   ("source", .null),
   ("max", .num 10000000000),
   ("min", .num 0)]

/-- The fallback (Text) shape for an unknown `field_type`. -/
def fallbackFieldObj (ignored : Bool) (field_label field_name : Str) :
    List (String × JVal) :=
  [("type", .str (S "Text")),
   ("balanced", .bool false),
   ("dataType", .str (S "Categorical")),
   ("highCardinality", .bool false),
   ("ignored", .bool ignored),
   ("includeOther", .bool true),
   ("label", .str field_label),
   ("name", .str field_name),
   ("ordering", .str (S "Occurrence")),
   ("sensitive", .bool false),
   ("source", .null),
   ("values", .arr [])]

/-- One iteration of the field loop of `build_einstein_fields_json`: the four
strict key accesses in source order, the defaulted `ignored` access, then the
dispatch on `field_type`. -/
def buildFieldObj (field : ModelFieldDict) : Except Str JVal :=
  match field.field_name, field.field_label, field.field_type, field.data_type with
  | none, _, _, _ => .error (S "KeyError: field_name")
  | some _, none, _, _ => .error (S "KeyError: field_label")
  | some _, some _, none, _ => .error (S "KeyError: field_type")
  | some _, some _, some _, none => .error (S "KeyError: data_type")
  | some field_name, some field_label, some field_type, some data_type =>
    if field_type = S "Text" then
      .ok (.obj (textFieldObj data_type (field.ignored.getD false) field_label field_name))
    else if field_type = S "Number" then
      .ok (.obj (numberFieldObj (field.ignored.getD false) field_label field_name))
    else
      .ok (.obj (fallbackFieldObj (field.ignored.getD false) field_label field_name))

/-- Left-to-right effectful map over `Except`, stopping at the first raised
exception (the behaviour of the Python for-loop). -/
def mapExcept (g : α → Except ε β) : List α → Except ε (List β)
  | [] => .ok []
  | a :: as =>
    match g a with
    | .error e => .error e
    | .ok b =>
      match mapExcept g as with
      | .error e => .error e
      | .ok bs => .ok (b :: bs)

/-- The array-building part of `build_einstein_fields_json`: the outcome entry
first (its construction dereferences `outcome_field`, so a missing outcome
field raises before the loop), then one entry per declared field. -/
def buildEinsteinFieldsArr (fields : Option (List ModelFieldDict))
    (outcome_field : Option Str) : Except Str (List JVal) :=
  match outcome_field with
  | none => .error (S "AttributeError: NoneType object has no attribute replace")
  | some outcome =>
    match fields with
    | none => .error (S "TypeError: NoneType object is not iterable")
    | some fl =>
      match mapExcept buildFieldObj fl with
      | .error e => .error e
      | .ok objs => .ok (.obj (outcomeFieldObj outcome) :: objs)

/-- Model of `build_einstein_fields_json` up to serialization: the function's
try/except re-raises any error with the prefix `Error building fields JSON: `. -/
def build_einstein_fields_json (fields : Option (List ModelFieldDict))
    (outcome_field : Option Str) : Except Str (List JVal) :=
  match buildEinsteinFieldsArr fields outcome_field with
  | .ok a => .ok a
  | .error e => .error (S "Error building fields JSON: " ++ e)

/-- An `Except`-map that succeeds has the same length as its input and is
pointwise the successful image of the input. -/
theorem mapExcept_ok_spec (g : α → Except ε β) (l : List α) (rs : List β)
    (h : mapExcept g l = .ok rs) :
    rs.length = l.length
    ∧ ∀ i (hi : i < l.length) (hi2 : i < rs.length),
        g (l.get ⟨i, hi⟩) = .ok (rs.get ⟨i, hi2⟩) := by
  induction l generalizing rs with
  | nil =>
    simp [mapExcept] at h
    subst h
    simp
  | cons a as ih =>
    simp only [mapExcept] at h
    cases hga : g a with
    | error e => rw [hga] at h; exact absurd h (by simp)
    | ok b =>
      rw [hga] at h
      cases hgs : mapExcept g as with
      | error e => rw [hgs] at h; exact absurd h (by simp)
      | ok bs =>
        rw [hgs] at h
        simp only [Except.ok.injEq] at h
        subst h
        obtain ⟨hlen, hget⟩ := ih bs hgs
        refine ⟨by simp [hlen], ?_⟩
        intro i hi hi2
        cases i with
        | zero => simpa using hga
        | succ j =>
          simp only [List.get_cons_succ]
          exact hget j (by simpa using hi) (by simpa using hi2)

/-- An `Except`-map over inputs that all succeed returns some list. -/
theorem mapExcept_ok_of_forall (g : α → Except ε β) (l : List α)
    (h : ∀ a ∈ l, ∃ b, g a = .ok b) : ∃ rs, mapExcept g l = .ok rs := by
  induction l with
  | nil => exact ⟨[], rfl⟩
  | cons a as ih =>
    obtain ⟨b, hb⟩ := h a (List.mem_cons_self a as)
    obtain ⟨rs, hrs⟩ := ih (fun x hx => h x (List.mem_cons_of_mem a hx))
    exact ⟨b :: rs, by simp [mapExcept, hb, hrs]⟩

/-- A well-formed Number field builds exactly the Number shape. -/
theorem buildFieldObj_number (f : ModelFieldDict) (nm lbl dt : Str)
    (hn : f.field_name = some nm) (hl : f.field_label = some lbl)
    (ht : f.field_type = some (S "Number")) (hd : f.data_type = some dt) :
    buildFieldObj f = .ok (.obj (numberFieldObj (f.ignored.getD false) lbl nm)) := by
  simp only [buildFieldObj, hn, hl, ht, hd]
  rw [if_neg (show ¬ (S "Number" = S "Text") by decide)]
  simp

/-- C5: the Einstein fields array has length 1 + number of declared fields,
its first entry is always the outcome field in the Text shape (dataType
Categorical, highCardinality false, includeOther true, ordering Occurrence,
empty values, sensitive false, null source) regardless of the outcome field,
and every declared Number field is rendered in the distinct Number shape
(Percentile bucketing with 10 buckets, min 0, max 10000000000, and no
dataType/values/ordering keys). -/
theorem claim_einstein_fields_array (fl : List ModelFieldDict) (outcome : Str)
    (hwf : ∀ f ∈ fl, f.field_name.isSome ∧ f.field_label.isSome
      ∧ f.field_type.isSome ∧ f.data_type.isSome) :
    ∃ arr, build_einstein_fields_json (some fl) (some outcome) = .ok arr
      ∧ arr.length = 1 + fl.length
      ∧ arr.head? = some (.obj (outcomeFieldObj outcome))
      ∧ List.lookup "dataType" (outcomeFieldObj outcome) = some (.str (S "Categorical"))
      ∧ List.lookup "highCardinality" (outcomeFieldObj outcome) = some (.bool false)
      ∧ List.lookup "includeOther" (outcomeFieldObj outcome) = some (.bool true)
      ∧ List.lookup "ordering" (outcomeFieldObj outcome) = some (.str (S "Occurrence"))
      ∧ List.lookup "values" (outcomeFieldObj outcome) = some (.arr [])
      ∧ List.lookup "sensitive" (outcomeFieldObj outcome) = some (.bool false)
      ∧ List.lookup "source" (outcomeFieldObj outcome) = some JVal.null
      ∧ (∀ i (hi : i < fl.length) (nm lbl dt : Str),
          (fl.get ⟨i, hi⟩).field_name = some nm →
          (fl.get ⟨i, hi⟩).field_label = some lbl →
          (fl.get ⟨i, hi⟩).field_type = some (S "Number") →
          (fl.get ⟨i, hi⟩).data_type = some dt →
          ∀ hi2 : i + 1 < arr.length,
            arr.get ⟨i + 1, hi2⟩
              = .obj (numberFieldObj ((fl.get ⟨i, hi⟩).ignored.getD false) lbl nm))
      ∧ (∀ (ign : Bool) (lbl nm : Str),
          List.lookup "dataType" (numberFieldObj ign lbl nm) = none
          ∧ List.lookup "values" (numberFieldObj ign lbl nm) = none
          ∧ List.lookup "ordering" (numberFieldObj ign lbl nm) = none
          ∧ List.lookup "bucketingStrategy" (numberFieldObj ign lbl nm)
              = some (.obj [("type", .str (S "Percentile")), ("numberOfBuckets", .num 10)])
          ∧ List.lookup "min" (numberFieldObj ign lbl nm) = some (.num 0)
          ∧ List.lookup "max" (numberFieldObj ign lbl nm) = some (.num 10000000000)) := by
  have hallok : ∀ f ∈ fl, ∃ b, buildFieldObj f = .ok b := by
    intro f hf
    obtain ⟨h1, h2, h3, h4⟩ := hwf f hf
    obtain ⟨nm, hn⟩ := Option.isSome_iff_exists.mp h1
    obtain ⟨lbl, hl⟩ := Option.isSome_iff_exists.mp h2
    obtain ⟨ft, ht⟩ := Option.isSome_iff_exists.mp h3
    obtain ⟨dt, hd⟩ := Option.isSome_iff_exists.mp h4
    simp only [buildFieldObj, hn, hl, ht, hd]
    split
    · exact ⟨_, rfl⟩
    · split
      · exact ⟨_, rfl⟩
      · exact ⟨_, rfl⟩
  obtain ⟨objs, hobjs⟩ := mapExcept_ok_of_forall buildFieldObj fl hallok
  obtain ⟨hlen, hget⟩ := mapExcept_ok_spec buildFieldObj fl objs hobjs
  refine ⟨.obj (outcomeFieldObj outcome) :: objs, ?_, ?_, rfl, rfl, rfl, rfl, rfl, rfl, rfl,
    rfl, ?_, ?_⟩
  · simp [build_einstein_fields_json, buildEinsteinFieldsArr, hobjs]
  · simp [hlen, Nat.add_comm]
  · intro i hi nm lbl dt hn hl ht hd hi2
    have hio : i < objs.length := by omega
    have := hget i hi hio
    rw [buildFieldObj_number (fl.get ⟨i, hi⟩) nm lbl dt hn hl ht hd] at this
    have hv : objs.get ⟨i, hio⟩
        = .obj (numberFieldObj ((fl.get ⟨i, hi⟩).ignored.getD false) lbl nm) := by
      exact Except.ok.inj this.symm
    simpa [List.get_cons_succ] using hv
  · intro ign lbl nm
    exact ⟨rfl, rfl, rfl, rfl, rfl, rfl⟩

/-- The concrete one-Number-field model of the spec's end-to-end example. -/
def mf1 : ModelFieldDict :=
  { field_name := some (S "Revenue__c"), field_label := some (S "Revenue"),
    field_type := some (S "Number"), data_type := some (S "Numerical") }

/-- Witness for C5: one Number field yields exactly the outcome entry followed
by the Number-shaped entry. -/
theorem claim_einstein_fields_array_witness :
    build_einstein_fields_json (some [mf1]) (some (S "Churn__c"))
        = .ok [.obj (outcomeFieldObj (S "Churn__c")),
               .obj (numberFieldObj false (S "Revenue") (S "Revenue__c"))]
    ∧ List.lookup "dataType" (outcomeFieldObj (S "Churn__c")) = some (.str (S "Categorical"))
    ∧ List.lookup "dataType" (numberFieldObj false (S "Revenue") (S "Revenue__c")) = none := by
  obtain ⟨arr, h1, h2, h3, h4, rest⟩ :=
    claim_einstein_fields_array [mf1] (S "Churn__c")
      (by
        intro f hf
        rw [List.mem_singleton] at hf
        subst hf
        exact ⟨rfl, rfl, rfl, rfl⟩)
  exact ⟨rfl, h4, rfl⟩

/-- C10: the Einstein outcome label equals the outcome field name with every
underscore replaced by a space; the subsequent removal of the `__c` suffix
never applies, so `Churn__c` is labelled `Churn  c`, not `Churn`. -/
theorem claim_outcome_label_replacement (outcome : Str) :
    outcomeLabel outcome = pyReplace (S "_") (S " ") outcome
    ∧ List.lookup "label" (outcomeFieldObj outcome)
        = some (.str (pyReplace (S "_") (S " ") outcome))
    ∧ outcomeLabel (S "Churn__c") = S "Churn  c"
    ∧ outcomeLabel (S "Churn__c") ≠ S "Churn" := by
  refine ⟨outcomeLabel_eq_first_replace outcome, ?_, by rfl, by decide⟩
  have h : List.lookup "label" (outcomeFieldObj outcome)
      = some (.str (outcomeLabel outcome)) := rfl
  rw [h, outcomeLabel_eq_first_replace]

/-- The attributes of the `simple_salesforce` connection object that `deploy`
reads.  A Python `None` connection is modelled by `Option.none` at the call
sites. -/
structure Session where
  session_id : Str
  sf_instance : Str
deriving DecidableEq

/-- An XML element as produced by `xml.etree.ElementTree`: the namespace part
of the parsed `{ns}name` tag (when present), the local name, the text
content, and the child elements. -/
inductive XTree where
  | elem (ns : Option Str) (name : Str) (text : Option Str) (children : List XTree)

/-- The namespace of an element. -/
def XTree.nsOf : XTree → Option Str
  | .elem ns _ _ _ => ns

/-- The local name of an element. -/
def XTree.nameOf : XTree → Str
  | .elem _ nm _ _ => nm

/-- The text of an element. -/
def XTree.textOf : XTree → Option Str
  | .elem _ _ tx _ => tx

/-- The children of an element. -/
def XTree.childrenOf : XTree → List XTree
  | .elem _ _ _ cs => cs

/-- Document-order search over a forest for the first element, at any depth,
satisfying the predicate (the descendant search of `find(".//...")`). -/
def findInForest (p : XTree → Bool) : List XTree → Option XTree
  | [] => none
  | XTree.elem ns nm tx cs :: rest =>
    if p (.elem ns nm tx cs) then some (.elem ns nm tx cs)
    else
      match findInForest p cs with
      | some r => some r
      | none => findInForest p rest

/-- The SOAP envelope namespace used in the `Fault` search. -/
def soapEnvNs : Str := S "http://schemas.xmlsoap.org/soap/envelope/"

/-- Whether an element is the namespaced SOAP `Fault` element. -/
def isFaultElem : XTree → Bool
  | .elem ns nm _ _ => decide (ns = some soapEnvNs ∧ nm = S "Fault")

/-- The `root.find(".//{soap-env}Fault")` search: descendants of the root in
document order. -/
def findFault (root : XTree) : Option XTree :=
  findInForest isFaultElem root.childrenOf

/-- The `fault.findtext("{*}faultcode")` lookup: the first direct child with
the given local name in any (or no) namespace; its text, with `None` text
rendered as the empty string; `none` when no child matches. -/
def findTextAnyNs (e : XTree) (nm : Str) : Option Str :=
  match e.childrenOf.find? (fun c => decide (XTree.nameOf c = nm)) with
  | some c => some ((XTree.textOf c).getD [])
  | none => none

/-- Python f-string interpolation of a possibly-`None` string. -/
def pyOptStr : Option Str → Str
  | none => S "None"
  | some s => s

/-- Decimal rendering of a number, as f-string interpolation does. -/
def natStr (n : Nat) : Str := S (toString n)

/-- The HTTP response of the `requests.post` call, together with the result of
`ET.fromstring` on its body (`none` models an `ET.ParseError`). -/
structure HttpResponse where
  status : Nat
  body : Str
  parsed : Option XTree

/-- The `fault_message` computed by `deploy` for a status of at least 400:
starts as `HTTP Error {status}.`; replaced by the SOAP fault rendering when
the body parses and contains a Fault element; extended by the fixed
not-valid-XML note when the body does not parse. -/
def faultMessage (resp : HttpResponse) : Str :=
  match resp.parsed with
  | none =>
    S "HTTP Error " ++ natStr resp.status ++ S "."
      ++ S " Additionally, the response body was not valid XML."
  | some root =>
    match findFault root with
    | none => S "HTTP Error " ++ natStr resp.status ++ S "."
    | some fault =>
      S "SOAP Fault: Code=\x27" ++ pyOptStr (findTextAnyNs fault (S "faultcode"))
        ++ S "\x27, Message=\x27" ++ pyOptStr (findTextAnyNs fault (S "faultstring"))
        ++ S "\x27 (HTTP Status: " ++ natStr resp.status ++ S ")"

/-- Classification of the deploy response: a status below 400 is accepted, any
other status raises `ValueError` carrying the fault message. -/
def classifyDeployResponse (resp : HttpResponse) : Except Str Unit :=
  if resp.status ≥ 400 then
    .error (S "Salesforce deployment API call failed: " ++ faultMessage resp)
  else .ok ()

/-- The SOAP deploy envelope, with the session id and base64 zip interpolated
into the fixed template (rollbackOnError true, singlePackage true, all other
options false). -/
def soapEnvelope (session_id b64 : Str) : Str :=
  S "<soapenv:Envelope xmlns:soapenv=\"http://schemas.xmlsoap.org/soap/envelope/\" xmlns:met=\"http://soap.sforce.com/2006/04/metadata\">\n   <soapenv:Header>\n      <met:SessionHeader>\n         <met:sessionId>"
    ++ session_id
    ++ S "</met:sessionId>\n      </met:SessionHeader>\n   </soapenv:Header>\n   <soapenv:Body>\n      <met:deploy>\n         <met:ZipFile>"
    ++ b64
    ++ S "</met:ZipFile>\n         <met:DeployOptions>\n            <met:allowMissingFiles>false</met:allowMissingFiles>\n            <met:autoUpdatePackage>false</met:autoUpdatePackage>\n            <met:checkOnly>false</met:checkOnly>\n            <met:ignoreWarnings>false</met:ignoreWarnings>\n            <met:performRetrieve>false</met:performRetrieve>\n            <met:purgeOnDelete>false</met:purgeOnDelete>\n            <met:rollbackOnError>true</met:rollbackOnError>\n            <met:singlePackage>true</met:singlePackage>\n         </met:DeployOptions>\n      </met:deploy>\n   </soapenv:Body>\n</soapenv:Envelope>\n    "

/-- Everything `deploy` does before the HTTP POST: the connection checks, the
endpoint computation and the envelope rendering.  The session id is read but
never validated. -/
def deployPre (b64 : Option Str) (sf : Option Session) : Except Str (Str × Str) :=
  match sf with
  | none => .error (S "Deployment failed: Invalid Salesforce connection.")
  | some s =>
    if s.sf_instance = [] then
      .error (S "Could not retrieve instance URL from Salesforce connection.")
    else
      match b64 with
      | none => .error (S "Deployment failed: Invalid package data.")
      | some b =>
        .ok (S "https://" ++ s.sf_instance ++ S "/services/Soap/m/58.0",
          soapEnvelope s.session_id b)

/-- The `deploy` function: pre-network checks, then the POST (whose response
the network oracle `resp` supplies) and its classification.  The boolean
records whether the HTTP request was issued. -/
def deploy (b64 : Option Str) (sf : Option Session) (resp : HttpResponse) :
    Except Str Unit × Bool :=
  match deployPre b64 sf with
  | .error e => (.error e, false)
  | .ok _ => (classifyDeployResponse resp, true)

/-- C2 (amended): `deploy` fails before any network request when the
connection object is absent (Python-falsy) or when the instance host is
empty; the session id is read but never validated, so a non-falsy connection
with an empty session id still issues the HTTP request. -/
theorem claim_deploy_preconditions (b64 : Option Str) (sf : Session)
    (resp : HttpResponse) :
    deploy b64 none resp
        = (.error (S "Deployment failed: Invalid Salesforce connection."), false)
    ∧ (sf.sf_instance = [] →
        deploy b64 (some sf) resp
          = (.error (S "Could not retrieve instance URL from Salesforce connection."), false))
    ∧ (sf.sf_instance ≠ [] → ∀ b : Str, (deploy (some b) (some sf) resp).2 = true) := by
  refine ⟨rfl, ?_, ?_⟩
  · intro h
    simp [deploy, deployPre, h]
  · intro h b
    simp [deploy, deployPre, h]

/-- The network oracle used in concrete deploy examples: an accepted (HTTP
200) response. -/
def resp200 : HttpResponse := { status := 200, body := [], parsed := none }

/-- A session whose session id is empty but whose instance host is set. -/
def emptySidSession : Session :=
  { session_id := [], sf_instance := S "example.my.salesforce.com" }

/-- C2 counterexample: with an empty session id (and a set instance host) the
deploy proceeds to the network call instead of failing with an invalid
connection error — the session id is never checked. -/
theorem claim_deploy_empty_session_counterexample :
    (deploy (some (S "UEsDBA==")) (some emptySidSession) resp200).2 = true
    ∧ (deploy (some (S "UEsDBA==")) (some emptySidSession) resp200).1 = .ok () :=
  ⟨rfl, rfl⟩

/-- Witness for C2 at concrete inputs: a missing connection and an empty
instance host each fail before the network call. -/
theorem claim_deploy_preconditions_witness :
    deploy (some (S "UEsDBA==")) none resp200
        = (.error (S "Deployment failed: Invalid Salesforce connection."), false)
    ∧ deploy (some (S "UEsDBA=="))
        (some { session_id := S "sid", sf_instance := [] }) resp200
        = (.error (S "Could not retrieve instance URL from Salesforce connection."), false) :=
  ⟨(claim_deploy_preconditions (some (S "UEsDBA==")) emptySidSession resp200).1,
   (claim_deploy_preconditions (some (S "UEsDBA=="))
      { session_id := S "sid", sf_instance := [] } resp200).2.1 rfl⟩

/-- C6 (amended): a status below 400 is accepted; a status of at least 400
raises the fault message; when the body parses and holds a SOAP Fault element
the message carries the extracted faultcode and faultstring; when the body is
not valid XML the message carries the status and a fixed not-valid-XML note
(no body excerpt). -/
theorem claim_deploy_response_classification (resp : HttpResponse) :
    (resp.status < 400 → classifyDeployResponse resp = .ok ())
    ∧ (resp.status ≥ 400 → classifyDeployResponse resp
        = .error (S "Salesforce deployment API call failed: " ++ faultMessage resp))
    ∧ (∀ root fault, resp.parsed = some root → findFault root = some fault →
        faultMessage resp
          = S "SOAP Fault: Code=\x27" ++ pyOptStr (findTextAnyNs fault (S "faultcode"))
            ++ S "\x27, Message=\x27" ++ pyOptStr (findTextAnyNs fault (S "faultstring"))
            ++ S "\x27 (HTTP Status: " ++ natStr resp.status ++ S ")")
    ∧ (resp.parsed = none → faultMessage resp
        = S "HTTP Error " ++ natStr resp.status ++ S "."
          ++ S " Additionally, the response body was not valid XML.") := by
  refine ⟨?_, ?_, ?_, ?_⟩
  · intro h
    have hn : ¬ (resp.status ≥ 400) := by omega
    simp [classifyDeployResponse, hn]
  · intro h
    simp [classifyDeployResponse, h]
  · intro root fault h1 h2
    simp only [faultMessage, h1, h2]
  · intro h
    simp only [faultMessage, h]

/-- A 500 response whose body is not XML at all. -/
def respBad : HttpResponse := { status := 500, body := S "garbage", parsed := none }

/-- C6 counterexample: on a non-XML body the raised error carries only the
status and the fixed not-valid-XML note; no excerpt of the body appears in
it. -/
theorem claim_deploy_response_counterexample :
    classifyDeployResponse respBad
      = .error (S "Salesforce deployment API call failed: HTTP Error 500. Additionally, the response body was not valid XML.")
    ∧ ¬ ((S "garbage")
        <:+: (S "Salesforce deployment API call failed: HTTP Error 500. Additionally, the response body was not valid XML.")) :=
  ⟨rfl, by decide⟩

/-- The SOAP Fault element of the concrete 500 example. -/
def faultElem500 : XTree :=
  .elem (some soapEnvNs) (S "Fault") none
    [.elem none (S "faultcode") (some (S "INVALID_SESSION_ID")) [],
     .elem none (S "faultstring") (some (S "Invalid Session ID found in SessionHeader")) []]

/-- A parsed 500 response whose body holds the Fault element. -/
def resp500 : HttpResponse :=
  { status := 500, body := S "envelope with fault",
    parsed := some (.elem (some soapEnvNs) (S "Envelope") none [faultElem500]) }

/-- Witness for C6: a 200 response is accepted, and the concrete 500 SOAP
fault yields a message carrying the INVALID_SESSION_ID fault code. -/
theorem claim_deploy_response_classification_witness :
    classifyDeployResponse resp200 = .ok ()
    ∧ faultMessage resp500
        = S "SOAP Fault: Code=\x27" ++ S "INVALID_SESSION_ID" ++ S "\x27, Message=\x27"
          ++ S "Invalid Session ID found in SessionHeader" ++ S "\x27 (HTTP Status: "
          ++ natStr 500 ++ S ")"
    ∧ classifyDeployResponse resp500
        = .error (S "Salesforce deployment API call failed: " ++ faultMessage resp500) := by
  have hff : findFault (XTree.elem (some soapEnvNs) (S "Envelope") none [faultElem500])
      = some faultElem500 := by
    simp [findFault, XTree.childrenOf, faultElem500, findInForest, isFaultElem]
  refine ⟨(claim_deploy_response_classification resp200).1 (by norm_num [resp200]), ?_, ?_⟩
  · exact (claim_deploy_response_classification resp500).2.2.1
      (XTree.elem (some soapEnvNs) (S "Envelope") none [faultElem500]) faultElem500 rfl hff
  · exact (claim_deploy_response_classification resp500).2.1 (by norm_num [resp500])

/-- The exceptions the describe path distinguishes: `AttributeError` (from
`getattr`/the proxy) versus any other exception. -/
inductive PyErr where
  | attributeError (msg : Str)
  | exc (msg : Str)

/-- One field record of a Salesforce describe result; `none` models an absent
key, so every `field.get(...)` access falls back to its default. -/
structure DescField where
  name : Option Str := none
  label : Option Str := none
  type : Option Str := none
  length : Option Int := none
  nillable : Option Bool := none
  unique : Option Bool := none
  externalId : Option Bool := none
  createable : Option Bool := none
  updateable : Option Bool := none
  picklistValues : Option (List Str) := none
  referenceTo : Option (List Str) := none
  relationshipName : Option Str := none

/-- The keys of the describe payload that `get_object_fields_cached` reads. -/
structure DescribeResult where
  fields : Option (List DescField) := none
  label : Option Str := none
  labelPlural : Option Str := none
  custom : Option Bool := none
  createable : Option Bool := none
  updateable : Option Bool := none
  deletable : Option Bool := none

/-- The normalized per-field record stored in the cache. -/
structure FieldInfo where
  name : Option Str
  label : Option Str
  type : Option Str
  length : Option Int
  required : Bool
  unique : Bool
  externalId : Bool
  createable : Bool
  updateable : Bool
  picklistValues : Option (List Str)
  relationshipName : Option (Option Str)
  referenceTo : Option (List Str)

/-- Normalization of one described field (the loop body of
`get_object_fields_cached`): `required` is the negation of `nillable`
(defaulting to nillable), picklist values are attached only for truthy
picklist-typed fields, and reference info only for reference-typed fields
with a truthy `referenceTo`. -/
def normalizeField (f : DescField) : FieldInfo :=
  { name := f.name, label := f.label, type := f.type, length := f.length,
    required := ! (f.nillable.getD true),
    unique := f.unique.getD false,
    externalId := f.externalId.getD false,
    createable := f.createable.getD false,
    updateable := f.updateable.getD false,
    picklistValues :=
      if (f.type = some (S "picklist") ∨ f.type = some (S "multipicklist"))
          ∧ f.picklistValues.getD [] ≠ [] then
        f.picklistValues
      else none,
    referenceTo :=
      if f.type = some (S "reference") ∧ f.referenceTo.getD [] ≠ [] then
        f.referenceTo
      else none,
    relationshipName :=
      if f.type = some (S "reference") ∧ f.referenceTo.getD [] ≠ [] then
        some f.relationshipName
      else none }

/-- The `objectInfo` part of a cache entry. -/
structure ObjInfo where
  label : Option Str
  labelPlural : Option Str
  custom : Bool
  createable : Bool
  updateable : Bool
  deletable : Bool

/-- A cache entry of the metadata cache. -/
structure CacheEntry where
  objectName : Str
  fields : List FieldInfo
  objectInfo : ObjInfo

/-- The cache entry built from a successful describe. -/
def mkCacheEntry (object_name : Str) (d : DescribeResult) : CacheEntry :=
  { objectName := object_name,
    fields := (d.fields.getD []).map normalizeField,
    objectInfo :=
      { label := d.label, labelPlural := d.labelPlural,
        custom := d.custom.getD false, createable := d.createable.getD false,
        updateable := d.updateable.getD false, deletable := d.deletable.getD false } }

/-- The external Salesforce describe capability reachable from an established
connection (`getattr(self.connection, name).describe()`). -/
structure SFConnection where
  describe : Str → Except PyErr DescribeResult

/-- The `OrgHandler` state: the optional connection and the process-lifetime
metadata cache (a dict in insertion order). -/
structure OrgHandler where
  connection : Option SFConnection
  metadata_cache : List (Str × CacheEntry)

/-- Python dict lookup on the insertion-ordered association list. -/
def lookupCache : List (Str × CacheEntry) → Str → Option CacheEntry
  | [], _ => none
  | (k, v) :: rest, n => if k = n then some v else lookupCache rest n

/-- Model of `OrgHandler.get_object_fields_cached`: the connection check, then
the cache lookup, then the describe call.  The final component counts how
often the external describe capability was invoked during the call. -/
def get_object_fields_cached (h : OrgHandler) (object_name : Str) :
    OrgHandler × Except Str CacheEntry × Nat :=
  match h.connection with
  | none => (h, .error (S "Salesforce connection not established."), 0)
  | some conn =>
    match lookupCache h.metadata_cache object_name with
    | some entry => (h, .ok entry, 0)
    | none =>
      match conn.describe object_name with
      | .error (.attributeError _) =>
        (h, .error (S "Object \x27" ++ object_name ++ S "\x27 not found or not accessible."), 1)
      | .error (.exc m) =>
        (h, .error (S "Error retrieving fields for " ++ object_name ++ S ": " ++ m), 1)
      | .ok d =>
        let entry := mkCacheEntry object_name d
        ({ h with metadata_cache := h.metadata_cache ++ [(object_name, entry)] },
          .ok entry, 1)

/-- A fresh dict key appended at the end is found by lookup. -/
theorem lookupCache_append_self (c : List (Str × CacheEntry)) (n : Str) (e : CacheEntry)
    (h : lookupCache c n = none) : lookupCache (c ++ [(n, e)]) n = some e := by
  induction c with
  | nil => simp [lookupCache]
  | cons kv rest ih =>
    obtain ⟨k, v⟩ := kv
    simp only [lookupCache] at h ⊢
    by_cases hk : k = n
    · rw [if_pos hk] at h
      exact absurd h (by simp)
    · rw [if_neg hk] at h ⊢
      exact ih h

/-- C7: with an established connection, a cache miss invokes the describe
capability exactly once and stores the normalized entry; the immediately
following call for the same name returns the stored entry with no further
describe invocation and leaves the state unchanged. -/
theorem claim_describe_memoized (h : OrgHandler) (object_name : Str)
    (conn : SFConnection) (d : DescribeResult)
    (hc : h.connection = some conn)
    (hmiss : lookupCache h.metadata_cache object_name = none)
    (hd : conn.describe object_name = .ok d) :
    (get_object_fields_cached h object_name).2.1 = .ok (mkCacheEntry object_name d)
    ∧ (get_object_fields_cached h object_name).2.2 = 1
    ∧ (get_object_fields_cached ((get_object_fields_cached h object_name).1)
        object_name).2.1 = .ok (mkCacheEntry object_name d)
    ∧ (get_object_fields_cached ((get_object_fields_cached h object_name).1)
        object_name).2.2 = 0
    ∧ (get_object_fields_cached ((get_object_fields_cached h object_name).1)
        object_name).1 = (get_object_fields_cached h object_name).1 := by
  have h1 : get_object_fields_cached h object_name
      = ({ h with metadata_cache
            := h.metadata_cache ++ [(object_name, mkCacheEntry object_name d)] },
         .ok (mkCacheEntry object_name d), 1) := by
    simp [get_object_fields_cached, hc, hmiss, hd]
  have h2 : get_object_fields_cached ((get_object_fields_cached h object_name).1) object_name
      = ((get_object_fields_cached h object_name).1,
         .ok (mkCacheEntry object_name d), 0) := by
    rw [h1]
    simp [get_object_fields_cached, hc,
      lookupCache_append_self h.metadata_cache object_name (mkCacheEntry object_name d) hmiss]
  rw [h2, h1]
  exact ⟨rfl, rfl, rfl, rfl, rfl⟩

/-- A connection whose describe capability always succeeds with an empty
payload. -/
def connOk : SFConnection := { describe := fun _ => .ok {} }

/-- A handler with an established connection and an empty cache. -/
def handlerEmpty : OrgHandler := { connection := some connOk, metadata_cache := [] }

/-- Witness for C7: two successive Account lookups invoke describe once, then
zero times, and the second returns the stored entry. -/
theorem claim_describe_memoized_witness :
    (get_object_fields_cached handlerEmpty (S "Account")).2.2 = 1
    ∧ (get_object_fields_cached ((get_object_fields_cached handlerEmpty (S "Account")).1)
        (S "Account")).2.2 = 0
    ∧ (get_object_fields_cached ((get_object_fields_cached handlerEmpty (S "Account")).1)
        (S "Account")).2.1 = .ok (mkCacheEntry (S "Account") {}) := by
  obtain ⟨a, b, c, d, e⟩ :=
    claim_describe_memoized handlerEmpty (S "Account") connOk {} rfl rfl rfl
  exact ⟨b, d, c⟩

/-- C9: with no established connection the cached field lookup raises the
connection error and performs no describe call, whatever the cache holds —
the connection check precedes the cache lookup. -/
theorem claim_connection_check_precedes_cache (h : OrgHandler) (object_name : Str)
    (hc : h.connection = none) :
    get_object_fields_cached h object_name
      = (h, .error (S "Salesforce connection not established."), 0) := by
  simp [get_object_fields_cached, hc]

/-- A handler with no connection whose cache already holds an Account entry. -/
def cachedNoConn : OrgHandler :=
  { connection := none,
    metadata_cache := [(S "Account", mkCacheEntry (S "Account") {})] }

/-- Witness for C9: even with the Account entry present in the cache, the
lookup fails with the connection error (and the entry really is present). -/
theorem claim_connection_check_precedes_cache_witness :
    get_object_fields_cached cachedNoConn (S "Account")
        = (cachedNoConn, .error (S "Salesforce connection not established."), 0)
    ∧ lookupCache cachedNoConn.metadata_cache (S "Account")
        = some (mkCacheEntry (S "Account") {}) :=
  ⟨claim_connection_check_precedes_cache cachedNoConn (S "Account") rfl, rfl⟩

/-- Filesystem paths relative to the module's `BASE_PATH`, as component
lists. -/
abbrev Path := List Str

/-- The filesystem state threaded through the build and packaging functions:
regular files with their contents (byte strings, as characters) and the
directories present. -/
structure FS where
  files : List (Path × Str)
  dirs : List Path

/-- Content of the file at a path (the file list holds at most one entry per
path). -/
def lookupFile (fs : FS) (p : Path) : Option Str :=
  match fs.files.find? (fun e => decide (e.1 = p)) with
  | some e => some e.2
  | none => none

/-- Whether a regular file exists at the path. -/
def fileExists (fs : FS) (p : Path) : Bool :=
  fs.files.any (fun e => decide (e.1 = p))

/-- Whether a directory exists at the path. -/
def dirExists (fs : FS) (p : Path) : Bool :=
  fs.dirs.any (fun q => decide (q = p))

/-- Writing a file (`open(..., "w")` semantics): any previous content at the
path is replaced. -/
def writeFile (fs : FS) (p : Path) (c : Str) : FS :=
  { fs with files := fs.files.filter (fun e => ! decide (e.1 = p)) ++ [(p, c)] }

/-- Appending to a file (`open(..., "a")` semantics). -/
def appendFile (fs : FS) (p : Path) (c : Str) : FS :=
  match lookupFile fs p with
  | some old => writeFile fs p (old ++ c)
  | none => writeFile fs p c

/-- Removing a regular file (`os.remove`). -/
def removeFile (fs : FS) (p : Path) : FS :=
  { fs with files := fs.files.filter (fun e => ! decide (e.1 = p)) }

/-- Removing a whole directory tree (`shutil.rmtree`): the directory, every
directory below it and every file below it disappear. -/
def removeTree (fs : FS) (p : Path) : FS :=
  { files := fs.files.filter (fun e => ! decide (p <+: e.1)),
    dirs := fs.dirs.filter (fun q => ! decide (p <+: q)) }

/-- Creating a directory (`os.makedirs(..., exist_ok=True)`). -/
def makeDirs (fs : FS) (p : Path) : FS :=
  if dirExists fs p then fs else { fs with dirs := fs.dirs ++ [p] }

/-- Re-rooting a path from below `src` to below `dst`. -/
def reroot (src dst : Path) (p : Path) : Path := dst ++ p.drop src.length

/-- Model of `shutil.copytree src dst`: fails when the source directory is
missing, or when the destination already exists and `dirs_exist_ok` was not
passed; otherwise copies every file and directory below `src` to the
corresponding path below `dst` (overwriting colliding files). -/
def copyTree (fs : FS) (src dst : Path) (dirs_exist_ok : Bool) : Except Str FS :=
  if ¬ dirExists fs src then
    .error (S "FileNotFoundError: copytree source missing")
  else if ¬ dirs_exist_ok ∧ dirExists fs dst then
    .error (S "FileExistsError: copytree destination exists")
  else
    let copied := (fs.files.filter (fun e => decide (src <+: e.1))).map
      (fun e => (reroot src dst e.1, e.2))
    .ok { files := fs.files.filter
            (fun e => ! copied.any (fun c => decide (c.1 = e.1))) ++ copied,
          dirs := fs.dirs ++ [dst] ++ (fs.dirs.filter
            (fun q => decide (src <+: q ∧ q ≠ src))).map (reroot src dst) }

/-- Model of `os.rename` for a regular file. -/
def renameFile (fs : FS) (old new : Path) : Except Str FS :=
  match lookupFile fs old with
  | none => .error (S "FileNotFoundError: rename source missing")
  | some c => .ok (writeFile (removeFile fs old) new c)

/-- The files below a directory, in stored order (the `os.walk` loop visits
every file below the root). -/
def walkFiles (fs : FS) (dir : Path) : List (Path × Str) :=
  fs.files.filter (fun e => decide (dir <+: e.1))

/-- The staging directory of the Einstein deploy pipeline
(`BASE_PATH/deployment_package`). -/
def deployDirPath : Path := [S "deployment_package"]

/-- The zip location of the Einstein deploy pipeline
(`BASE_PATH/deploy_package.zip`). -/
def zipPath : Path := [S "deploy_package.zip"]

/-- Stand-in for the zip byte serialization produced by `zipfile.ZipFile`
(the archive format itself is an external library): it records exactly the
(archive name, file bytes) pairs the code passes to `zf.write`. -/
def zipSerialize (es : List (Path × Str)) : Str :=
  (es.map (fun e => S "|" ++ (List.intercalate (S "/") e.1) ++ S ":" ++ e.2)).flatten

/-- The base64 alphabet. -/
def b64Alphabet : Str :=
  S "ABCDEFGHIJKLMNOPQRSTUVWXYZabcdefghijklmnopqrstuvwxyz0123456789+/"

/-- The base64 character of a 6-bit value. -/
def b64CharOf (n : Nat) : Char := b64Alphabet.getD n 'A'

/-- Standard base64 of a byte list, three bytes at a time with padding. -/
def base64Chunks : List Nat → Str
  | [] => []
  | [a] => [b64CharOf (a / 4), b64CharOf (a % 4 * 16), '=', '=']
  | [a, b] => [b64CharOf (a / 4), b64CharOf (a % 4 * 16 + b / 16),
      b64CharOf (b % 16 * 4), '=']
  | a :: b :: c :: rest =>
    [b64CharOf (a / 4), b64CharOf (a % 4 * 16 + b / 16),
     b64CharOf (b % 16 * 4 + c / 64), b64CharOf (c % 64)] ++ base64Chunks rest

/-- Base64 of a byte string (characters are the file's bytes). -/
def base64Encode (s : Str) : Str := base64Chunks (s.map Char.toNat)

/-- Model of `binary_to_base64`: reads the file and base64-encodes it;
returns `None` (after printing) when the file does not exist — the
`FileNotFoundError` is swallowed. -/
def binary_to_base64 (fs : FS) (p : Path) : Option Str :=
  match lookupFile fs p with
  | some c => some (base64Encode c)
  | none => none

/-- The packaging part of `deploy_package_from_deploy_dir`: raises
`FileNotFoundError` when the staging directory is missing; removes a
pre-existing zip; writes the new archive whose entries are the staged files
at staging-root-relative names; reads it back for base64.  (The code's error
message carries the absolute staging path; paths here are relative to
`BASE_PATH`.) -/
def packageDeployDir (fs : FS) : Except Str (FS × List (Path × Str) × Option Str) :=
  match dirExists fs deployDirPath with
  | false => .error (S "Deployment directory not found: deployment_package")
  | true =>
    let fs1 := match fileExists fs zipPath with
      | true => removeFile fs zipPath
      | false => fs
    let entries := (walkFiles fs deployDirPath).map
      (fun e => (e.1.drop deployDirPath.length, e.2))
    let fs2 := writeFile fs1 zipPath (zipSerialize entries)
    .ok (fs2, entries, binary_to_base64 fs2 zipPath)

/-- Model of `deploy_package_from_deploy_dir`: package the staging directory,
then deploy the base64 archive over the connection.  The boolean records
whether the HTTP request was issued. -/
def deploy_package_from_deploy_dir (fs : FS) (sf : Option Session)
    (resp : HttpResponse) : Except Str FS × Bool :=
  match packageDeployDir fs with
  | .error e => (.error e, false)
  | .ok (fs2, _, b64) =>
    match deploy b64 sf resp with
    | (.error e, nb) => (.error e, nb)
    | (.ok _, nb) => (.ok fs2, nb)

/-- A freshly written file is read back with the written content. -/
theorem lookupFile_writeFile_self (fs : FS) (p : Path) (c : Str) :
    lookupFile (writeFile fs p c) p = some c := by
  unfold lookupFile writeFile
  rw [List.find?_append]
  have hnone : (fs.files.filter (fun e => ! decide (e.1 = p))).find?
      (fun e => decide (e.1 = p)) = none := by
    rw [List.find?_eq_none]
    intro e he
    have := List.of_mem_filter he
    simpa using this
  rw [hnone]
  simp

/-- A prefix followed by the dropped remainder reassembles the whole list. -/
theorem prefix_append_drop {α : Type} {l₁ l₂ : List α} (h : l₁ <+: l₂) :
    l₁ ++ l₂.drop l₁.length = l₂ := by
  obtain ⟨t, rfl⟩ := h
  rw [List.drop_left]

/-- C8: packaging fails with `FileNotFoundError` when the staging directory is
missing; otherwise the produced archive holds exactly the staged files at
staging-root-relative paths (so the staging directory is never a prefix of an
entry), any pre-existing zip at the target location is replaced by the new
archive, and the archive is read back base64-encoded; reading back a missing
file yields `None`, which makes the subsequent deploy fail with the invalid
package data error before any network call. -/
theorem claim_packager_contract (fs : FS) :
    (dirExists fs deployDirPath = false →
        packageDeployDir fs = .error (S "Deployment directory not found: deployment_package")
        ∧ ∀ sf resp, deploy_package_from_deploy_dir fs sf resp
            = (.error (S "Deployment directory not found: deployment_package"), false))
    ∧ (dirExists fs deployDirPath = true →
        ∃ fs2 entries b64, packageDeployDir fs = .ok (fs2, entries, b64)
          ∧ (∀ p c, (p, c) ∈ fs.files → deployDirPath <+: p →
              (p.drop deployDirPath.length, c) ∈ entries)
          ∧ (∀ q c, (q, c) ∈ entries → (deployDirPath ++ q, c) ∈ fs.files)
          ∧ lookupFile fs2 zipPath = some (zipSerialize entries)
          ∧ b64 = some (base64Encode (zipSerialize entries)))
    ∧ (∀ p, lookupFile fs p = none → binary_to_base64 fs p = none)
    ∧ (∀ (s : Session) (resp : HttpResponse), s.sf_instance ≠ [] →
        deploy none (some s) resp
          = (.error (S "Deployment failed: Invalid package data."), false)) := by
  refine ⟨?_, ?_, ?_, ?_⟩
  · intro hdir
    have h1 : packageDeployDir fs
        = .error (S "Deployment directory not found: deployment_package") := by
      simp [packageDeployDir, hdir]
    exact ⟨h1, fun sf resp => by simp [deploy_package_from_deploy_dir, h1]⟩
  · intro hdir
    rcases hpk : packageDeployDir fs with e | ⟨fs2, entries, b64⟩
    · exfalso
      simp only [packageDeployDir, hdir] at hpk
      exact absurd hpk (by simp)
    · have hpk2 := hpk
      simp only [packageDeployDir, hdir, Except.ok.injEq, Prod.mk.injEq] at hpk2
      obtain ⟨h1, h2, h3⟩ := hpk2
      refine ⟨fs2, entries, b64, rfl, ?_, ?_, ?_, ?_⟩
      · intro p c hmem hpre
        rw [← h2]
        exact List.mem_map_of_mem _ (List.mem_filter.mpr ⟨hmem, by simpa using hpre⟩)
      · intro q c hq
        rw [← h2] at hq
        obtain ⟨⟨p0, c0⟩, hp0, heq⟩ := List.mem_map.mp hq
        obtain ⟨hmem, hpre⟩ := List.mem_filter.mp hp0
        simp only [Prod.mk.injEq] at heq
        obtain ⟨hq1, hq2⟩ := heq
        have hpre2 : deployDirPath <+: p0 := by simpa using hpre
        rw [← hq1, ← hq2, prefix_append_drop hpre2]
        exact hmem
      · rw [← h1, ← h2]
        exact lookupFile_writeFile_self _ _ _
      · rw [← h3, ← h2]
        simp only [binary_to_base64, lookupFile_writeFile_self]
  · intro p hp
    simp [binary_to_base64, hp]
  · intro s resp h
    simp [deploy, deployPre, h]

/-- A staging tree with the files a/b.txt and c.txt, a stale zip at the
target location, and an unrelated file outside the staging directory. -/
def fsEx : FS :=
  { files := [([S "deploy_package.zip"], S "OLD"),
              ([S "deployment_package", S "a", S "b.txt"], S "B"),
              ([S "deployment_package", S "c.txt"], S "C"),
              ([S "other.txt"], S "X")],
    dirs := [[S "deployment_package"], [S "deployment_package", S "a"]] }

/-- An empty filesystem: no staging directory. -/
def fsEmpty : FS := { files := [], dirs := [] }

/-- Witness for C8: the missing staging directory fails with the
FileNotFoundError message; the concrete staging tree packs to exactly the
entries a/b.txt and c.txt (no staging-root prefix) and replaces the stale
zip; a missing archive reads back as `None`; deploying `None` fails before
the network call. -/
theorem claim_packager_contract_witness :
    packageDeployDir fsEmpty
        = .error (S "Deployment directory not found: deployment_package")
    ∧ binary_to_base64 fsEx [S "nope.zip"] = none
    ∧ deploy none (some emptySidSession) resp200
        = (.error (S "Deployment failed: Invalid package data."), false)
    ∧ (packageDeployDir fsEx).isOk = true
    ∧ packageDeployDir fsEx
        = .ok ({ files := [([S "deployment_package", S "a", S "b.txt"], S "B"),
                           ([S "deployment_package", S "c.txt"], S "C"),
                           ([S "other.txt"], S "X"),
                           ([S "deploy_package.zip"],
                             zipSerialize [([S "a", S "b.txt"], S "B"), ([S "c.txt"], S "C")])],
                 dirs := [[S "deployment_package"], [S "deployment_package", S "a"]] },
               [([S "a", S "b.txt"], S "B"), ([S "c.txt"], S "C")],
               some (base64Encode (zipSerialize [([S "a", S "b.txt"], S "B"),
                 ([S "c.txt"], S "C")]))) := by
  have hfnf := ((claim_packager_contract fsEmpty).1 rfl).1
  have hb64 := (claim_packager_contract fsEx).2.2.1 [S "nope.zip"] rfl
  have hdep := (claim_packager_contract fsEx).2.2.2 emptySidSession resp200 (by decide)
  have hok : (packageDeployDir fsEx).isOk = true := by
    obtain ⟨fs2, entries, b64, hpk, -, -, -, -⟩ :=
      (claim_packager_contract fsEx).2.1 rfl
    rw [hpk]
    rfl
  exact ⟨hfnf, hb64, hdep, hok, rfl⟩

/-- Python `str.replace` with a possibly-`None` replacement argument, which
raises `TypeError`. -/
def pyReplaceOpt (pat : Str) (rep : Option Str) (s : Str) : Except Str Str :=
  match rep with
  | none => .error (S "TypeError: replace() argument 2 must be str, not None")
  | some r => .ok (pyReplace pat r s)

/-- Reading a file, raising `FileNotFoundError` when it is absent. -/
def readFile (fs : FS) (p : Path) : Except Str Str :=
  match lookupFile fs p with
  | some c => .ok c
  | none => .error (S "FileNotFoundError: open for read")

/-- The `create_object_with_fields` request as the implementation assembles
it: every key is present, each value possibly Python `None` (modelled
`none`). -/
structure JsonObj where
  name : Option Str
  plural_name : Option Str
  description : Option Str
  api_name : Option Str
  fields : Option (List FieldDict)

/-- The staging directory of the custom-object build (`BASE_PATH/current`). -/
def currentPath : Path := [S "current"]

/-- The custom-object template tree (`BASE_PATH/assets/create_object_tmpl`). -/
def assetsObjTmpl : Path := [S "assets", S "create_object_tmpl"]

/-- The field template file (`BASE_PATH/assets/field.tmpl`). -/
def fieldTmplPath : Path := [S "assets", S "field.tmpl"]

/-- The profile template file (`BASE_PATH/assets/profile.tmpl`). -/
def profileTmplPath : Path := [S "assets", S "profile.tmpl"]

/-- The error log the build wrappers append to (`BASE_PATH/check.txt`). -/
def checkTxtPath : Path := [S "check.txt"]

/-- The general log file of `write_to_file` (`BASE_PATH/mylog.txt`). -/
def myLogPath : Path := [S "mylog.txt"]

/-- The zip produced by `zip_directory` (`BASE_PATH/pack.zip`). -/
def packZipPath : Path := [S "pack.zip"]

/-- The field loop of `create_metadata_package`: processes the fields left to
right, collecting the api names and concatenating the rendered fragments,
stopping at the first exception. -/
def processFields (field_tmpl : Str) : List FieldDict → Except Str (List Str × Str)
  | [] => .ok ([], [])
  | f :: rest =>
    match processField field_tmpl f with
    | .error e => .error e
    | .ok (nm, frag) =>
      match processFields field_tmpl rest with
      | .error e => .error e
      | .ok (nms, frags) => .ok (nm :: nms, frag ++ frags)

/-- The `package.xml` of a custom-object deployment, with the object member
interpolated. -/
def packageXml (api_name : Str) : Str :=
  S "<?xml version=\"1.0\" encoding=\"UTF-8\"?>\n<Package xmlns=\"http://soap.sforce.com/2006/04/metadata\">\n    <types>\n        <members>"
    ++ api_name
    ++ S "</members>\n        <name>CustomObject</name>\n    </types>\n    <types>\n        <members>Admin</members>\n        <name>Profile</name>\n    </types>\n    <version>63.0</version>\n</Package>"

/-- The `fieldPermissions` block of the Admin profile: one read+edit stanza
per declared field. -/
def fieldPermissionsBlock (api_name : Str) : List Str → Str
  | [] => []
  | f :: rest =>
    S "    <fieldPermissions>\n        <editable>true</editable>\n        <field>"
      ++ api_name ++ S "." ++ f
      ++ S "</field>\n        <readable>true</readable>\n    </fieldPermissions>\n"
      ++ fieldPermissionsBlock api_name rest

/-- The body of `create_metadata_package` (the contents of its `try` block):
discard the staging directory, copy the template tree, rename the object
descriptor, render the fields, write `package.xml`, substitute the object
descriptor, and generate the Admin profile.  Returns the filesystem as left
behind together with the first exception, if any. -/
def create_metadata_package_body (j : JsonObj) (fs0 : FS) : FS × Except Str Unit :=
  let fs1 := removeTree fs0 currentPath
  match copyTree fs1 assetsObjTmpl currentPath false with
  | .error e => (fs1, .error e)
  | .ok fs2 =>
    match renameFile fs2 (currentPath ++ [S "objects", S "##api_name##.object"])
        (currentPath ++ [S "objects", pyOptStr j.api_name ++ S ".object"]) with
    | .error e => (fs2, .error e)
    | .ok fs3 =>
      match readFile fs3 fieldTmplPath with
      | .error e => (fs3, .error e)
      | .ok field_tmpl =>
        match (match j.fields with
               | none => Except.error (S "TypeError: NoneType object is not iterable")
               | some fl => processFields field_tmpl fl) with
        | .error e => (fs3, .error e)
        | .ok (field_names, fields_str) =>
          let fs4 := writeFile fs3 (currentPath ++ [S "package.xml"])
            (packageXml (pyOptStr j.api_name))
          let obj_path := currentPath ++ [S "objects", pyOptStr j.api_name ++ S ".object"]
          match readFile fs4 obj_path with
          | .error e => (fs4, .error e)
          | .ok obj_tmpl =>
            let t1 := pyReplace (S "##description##") (j.description.getD []) obj_tmpl
            match pyReplaceOpt (S "##name##") j.name t1 with
            | .error e => (fs4, .error e)
            | .ok t2 =>
              match pyReplaceOpt (S "##plural_name##") j.plural_name t2 with
              | .error e => (fs4, .error e)
              | .ok t3 =>
                let t4 := pyReplace (S "##fields##") fields_str t3
                let fs5 := writeFile fs4 obj_path t4
                let fs6 := makeDirs fs5 (currentPath ++ [S "profiles"])
                let fperms := fieldPermissionsBlock (pyOptStr j.api_name) field_names
                match readFile fs6 profileTmplPath with
                | .error e => (fs6, .error e)
                | .ok profile_template =>
                  let profile_xml := pyReplace (S "##fieldPermissions##") fperms
                    profile_template
                  (writeFile fs6 (currentPath ++ [S "profiles", S "Admin.profile"])
                    profile_xml, .ok ())

/-- Model of `create_metadata_package`: any exception of the body is appended
to `check.txt` and swallowed — the function always returns normally. -/
def create_metadata_package (j : JsonObj) (fs : FS) : FS × Except Str Unit :=
  match create_metadata_package_body j fs with
  | (fs1, .ok _) => (fs1, .ok ())
  | (fs1, .error e) =>
    (appendFile fs1 checkTxtPath (S "An error occurred: " ++ e), .ok ())

mutual

/-- Stand-in for `json.dumps` of a JSON value (the `indent=4` layout of the
external serializer is not reproduced; the serialized content is). -/
def dumpJVal : JVal → Str
  | .null => S "null"
  | .bool true => S "true"
  | .bool false => S "false"
  | .num n => S (toString n)
  | .str s => S "\"" ++ s ++ S "\""
  | .arr xs => S "[" ++ dumpJArr xs ++ S "]"
  | .obj kvs => S "\x7b" ++ dumpJObj kvs ++ S "\x7d"

/-- Comma-separated serialization of an array body. -/
def dumpJArr : List JVal → Str
  | [] => []
  | [x] => dumpJVal x
  | x :: y :: rest => dumpJVal x ++ S ", " ++ dumpJArr (y :: rest)

/-- Comma-separated serialization of an object body. -/
def dumpJObj : List (String × JVal) → Str
  | [] => []
  | [(k, v)] => S "\"" ++ S k ++ S "\": " ++ dumpJVal v
  | (k, v) :: y :: rest =>
    S "\"" ++ S k ++ S "\": " ++ dumpJVal v ++ S ", " ++ dumpJObj (y :: rest)

end

/-- The `create_einstein_model` request as the implementation assembles it:
every key present, each value possibly Python `None` (modelled `none`). -/
structure EJsonObj where
  model_name : Option Str
  description : Option Str
  model_capability : Option Str
  outcome_field : Option Str
  goal : Option Str
  data_source : Option Str
  success_value : Option Str
  failure_value : Option Str
  algorithm_type : Option Str
  fields : Option (List ModelFieldDict)

/-- The Einstein template tree (`BASE_PATH/assets/create_einstein_model_tmpl`). -/
def einsteinTmplRoot : Path := [S "assets", S "create_einstein_model_tmpl"]

/-- The body of `create_einstein_model_package` (the contents of its `try`
block): clean the deploy directory, sanitize the model name, copy the
template tree, substitute the three descriptor files, write the top-level
`package.xml`, and append the success line to the log. -/
def create_einstein_model_package_body (j : EJsonObj) (fs0 : FS) : FS × Except Str Unit :=
  let fs1 := makeDirs (removeTree fs0 deployDirPath) deployDirPath
  match j.model_name with
  | none => (fs1, .error (S "AttributeError: NoneType object has no attribute replace"))
  | some mn =>
    let template_name := pyReplace (S "-") (S "_") (pyReplace (S " ") (S "_") mn)
    let target_dir := deployDirPath ++ [S "appTemplates", template_name]
    let fs2 := makeDirs fs1 target_dir
    match copyTree fs2 (einsteinTmplRoot ++ [S "appTemplates", S "##template_name##"])
        target_dir true with
    | .error e => (fs2, .error e)
    | .ok fs3 =>
      let container_path := target_dir ++ [S "ml", S "containers", S "ModelContainer.json"]
      match readFile fs3 container_path with
      | .error e => (fs3, .error e)
      | .ok cc0 =>
        let cc1 := pyReplace (S "##model_label##") mn cc0
        match pyReplaceOpt (S "##model_description##") j.description cc1 with
        | .error e => (fs3, .error e)
        | .ok cc2 =>
        match pyReplaceOpt (S "##model_capability##") j.model_capability cc2 with
        | .error e => (fs3, .error e)
        | .ok cc3 =>
        match pyReplaceOpt (S "##outcome_field##") j.outcome_field cc3 with
        | .error e => (fs3, .error e)
        | .ok cc4 =>
        match pyReplaceOpt (S "##goal##") j.goal cc4 with
        | .error e => (fs3, .error e)
        | .ok cc5 =>
          let fs4 := writeFile fs3 container_path cc5
          let setup_path := target_dir ++ [S "ml", S "setups", S "ModelSetup.json"]
          match readFile fs4 setup_path with
          | .error e => (fs4, .error e)
          | .ok sc0 =>
            match build_einstein_fields_json j.fields j.outcome_field with
            | .error e => (fs4, .error e)
            | .ok arr =>
              let fields_json := dumpJVal (.arr arr)
              let outcome_type :=
                if j.model_capability = some (S "BinaryClassification") then S "Binary"
                else S "Regression"
              let sc1 := pyReplace (S "##setup_description##")
                (pyOptStr j.description ++ S " - Model Setup") sc0
              match pyReplaceOpt (S "##data_source##") j.data_source sc1 with
              | .error e => (fs4, .error e)
              | .ok sc2 =>
              let sc3 := pyReplace (S "##outcome_type##") outcome_type sc2
              match pyReplaceOpt (S "##failure_value##") j.failure_value sc3 with
              | .error e => (fs4, .error e)
              | .ok sc4 =>
              match pyReplaceOpt (S "##goal##") j.goal sc4 with
              | .error e => (fs4, .error e)
              | .ok sc5 =>
              match j.outcome_field with
              | none =>
                (fs4, .error (S "AttributeError: NoneType object has no attribute replace"))
              | some ofd =>
                let sc6 := pyReplace (S "##outcome_label##") (outcomeLabel ofd) sc5
                let sc7 := pyReplace (S "##outcome_field##") ofd sc6
                match pyReplaceOpt (S "##success_value##") j.success_value sc7 with
                | .error e => (fs4, .error e)
                | .ok sc8 =>
                match pyReplaceOpt (S "##algorithm_type##") j.algorithm_type sc8 with
                | .error e => (fs4, .error e)
                | .ok sc9 =>
                  let sc10 := pyReplace (S "##fields_json##") fields_json sc9
                  let fs5 := writeFile fs4 setup_path sc10
                  let ti_path := target_dir ++ [S "template-info.json"]
                  match readFile fs5 ti_path with
                  | .error e => (fs5, .error e)
                  | .ok ti0 =>
                    let ti1 := pyReplace (S "##model_label##") mn ti0
                    let ti2 := pyReplace (S "##template_description##")
                      (pyOptStr j.description ++ S " - Einstein Studio Model Template") ti1
                    let ti3 := pyReplace (S "##template_name##") template_name ti2
                    let fs6 := writeFile fs5 ti_path ti3
                    match readFile fs6 (einsteinTmplRoot ++ [S "package.xml"]) with
                    | .error e => (fs6, .error e)
                    | .ok pc0 =>
                      let pc1 := pyReplace (S "##template_name##") template_name pc0
                      let fs7 := writeFile fs6 (deployDirPath ++ [S "package.xml"]) pc1
                      (appendFile fs7 myLogPath
                        (S "Einstein Studio model package created: " ++ template_name),
                       .ok ())

/-- Model of `create_einstein_model_package`: any exception of the body is
appended to `check.txt` and then re-raised, wrapped in the
`Error creating Einstein model package: ` prefix. -/
def create_einstein_model_package (j : EJsonObj) (fs : FS) : FS × Except Str Unit :=
  match create_einstein_model_package_body j fs with
  | (fs1, .ok _) => (fs1, .ok ())
  | (fs1, .error e) =>
    (appendFile fs1 checkTxtPath (S "Error creating Einstein model package: " ++ e),
     .error (S "Error creating Einstein model package: " ++ e))

/-- A possibly-`None` string as a JSON value. -/
def optStrJ : Option Str → JVal
  | none => .null
  | some s => .str s

/-- Rendering of a field dict for the request log (absent keys omitted). -/
def fieldDictToJVal (f : FieldDict) : JVal :=
  .obj ((match f.label with | some v => [("label", JVal.str v)] | none => [])
    ++ (match f.type with | some v => [("type", JVal.str v)] | none => [])
    ++ (match f.api_name with | some v => [("api_name", JVal.str v)] | none => [])
    ++ (match f.defaultValue with | some b => [("defaultValue", JVal.bool b)] | none => [])
    ++ (match f.referenceTo with | some v => [("referenceTo", JVal.str v)] | none => [])
    ++ (match f.relationshipLabel with
        | some v => [("relationshipLabel", JVal.str v)] | none => [])
    ++ (match f.relationshipName with
        | some v => [("relationshipName", JVal.str v)] | none => [])
    ++ (match f.picklist_values with
        | some vs => [("picklist_values", JVal.arr (vs.map JVal.str))] | none => []))

/-- The request dict as `create_object_with_fields_impl` assembles it, in
insertion order, for the `json.dumps` log line. -/
def jsonObjToJVal (j : JsonObj) : JVal :=
  .obj [("name", optStrJ j.name), ("plural_name", optStrJ j.plural_name),
        ("api_name", optStrJ j.api_name), ("description", optStrJ j.description),
        ("fields", match j.fields with
          | none => .null
          | some fl => .arr (fl.map fieldDictToJVal))]

/-- Model of `zip_directory`: `shutil.make_archive(BASE_PATH/pack, "zip",
filepath)` raises `FileNotFoundError` when the root directory does not
exist; otherwise it writes `pack.zip` holding the directory contents at
root-relative names, replacing any previous archive. -/
def zip_directory (fs : FS) (dir : Path) : Except Str FS :=
  if dirExists fs dir then
    .ok (writeFile fs packZipPath
      (zipSerialize ((walkFiles fs dir).map (fun e => (e.1.drop dir.length, e.2)))))
  else
    .error (S "FileNotFoundError: make_archive root_dir missing")

/-- Model of `create_object_with_fields_impl`: the connection check, the
request log line, the (exception-swallowing) build, then
`create_send_to_server` — `zip_directory` on the staging directory (which
raises when the directory is missing), base64-encoding the archive, and
deploying.  The result is the returned text, or the exception raised by the
packaging/deploy steps (the implementation has no try/except around them). -/
def create_object_with_fields_impl (j : JsonObj) (conn : Option Session)
    (fs : FS) (resp : HttpResponse) : FS × Except Str Str :=
  match conn with
  | none =>
    (fs, .ok (S "Salesforce connection is not active. Cannot perform metadata deployment."))
  | some sess =>
    let fsA := appendFile fs myLogPath (dumpJVal (jsonObjToJVal j))
    match create_metadata_package j fsA with
    | (fsB, _) =>
      match zip_directory fsB currentPath with
      | .error e => (fsB, .error e)
      | .ok fsC =>
        match deploy (binary_to_base64 fsC packZipPath) (some sess) resp with
        | (.error e, _) => (fsC, .error e)
        | (.ok _, _) =>
          (fsC, .ok (S "Custom Object \x27" ++ pyOptStr j.api_name
            ++ S "\x27 creation package prepared and deployment initiated."))

/-- C1 (amended): error-propagation asymmetry of the two build protocols.
Any body exception of the custom-object build is appended to `check.txt` and
suppressed — `create_metadata_package` always returns normally and the
pipeline proceeds to packaging; the caller receives the `prepared and
deployment initiated` text whenever the subsequent packaging and deploy
succeed (in particular even after a suppressed build failure that left the
staging directory in place), while a suppressed build failure that left the
staging directory missing makes the packaging step raise `FileNotFoundError`
to the caller.  Any body exception of the Einstein build is appended to
`check.txt` and re-raised, wrapped with the
`Error creating Einstein model package: ` prefix. -/
theorem claim_build_error_asymmetry :
    (∀ (j : JsonObj) (fs : FS), (create_metadata_package j fs).2 = .ok ())
    ∧ (∀ (j : JsonObj) (fs fs1 : FS) (e : Str),
        create_metadata_package_body j fs = (fs1, .error e) →
        create_metadata_package j fs
          = (appendFile fs1 checkTxtPath (S "An error occurred: " ++ e), .ok ()))
    ∧ (∀ (j : EJsonObj) (fs fs1 : FS) (e : Str),
        create_einstein_model_package_body j fs = (fs1, .error e) →
        create_einstein_model_package j fs
          = (appendFile fs1 checkTxtPath (S "Error creating Einstein model package: " ++ e),
             .error (S "Error creating Einstein model package: " ++ e)))
    ∧ (∀ (j : EJsonObj) (fs fs1 : FS),
        create_einstein_model_package_body j fs = (fs1, .ok ()) →
        create_einstein_model_package j fs = (fs1, .ok ()))
    ∧ (∀ (j : JsonObj) (sess : Session) (fs : FS) (resp : HttpResponse),
        sess.sf_instance ≠ [] → resp.status < 400 →
        dirExists (create_metadata_package j
            (appendFile fs myLogPath (dumpJVal (jsonObjToJVal j)))).1 currentPath = true →
        (create_object_with_fields_impl j (some sess) fs resp).2
          = .ok (S "Custom Object \x27" ++ pyOptStr j.api_name
              ++ S "\x27 creation package prepared and deployment initiated."))
    ∧ (∀ (j : JsonObj) (sess : Session) (fs : FS) (resp : HttpResponse),
        dirExists (create_metadata_package j
            (appendFile fs myLogPath (dumpJVal (jsonObjToJVal j)))).1 currentPath = false →
        (create_object_with_fields_impl j (some sess) fs resp).2
          = .error (S "FileNotFoundError: make_archive root_dir missing")) := by
  refine ⟨?_, ?_, ?_, ?_, ?_, ?_⟩
  · intro j fs
    rcases h : create_metadata_package_body j fs with ⟨fs1, e | u⟩ <;>
      simp [create_metadata_package, h]
  · intro j fs fs1 e h
    simp [create_metadata_package, h]
  · intro j fs fs1 e h
    simp [create_einstein_model_package, h]
  · intro j fs fs1 h
    simp [create_einstein_model_package, h]
  · intro j sess fs resp h1 h2 hdir
    rcases hb : create_metadata_package j (appendFile fs myLogPath (dumpJVal (jsonObjToJVal j)))
      with ⟨fsB, r⟩
    rw [hb] at hdir
    have hdir2 : dirExists fsB currentPath = true := hdir
    have hb64 : ∀ (x : Str), binary_to_base64 (writeFile fsB packZipPath x) packZipPath
        = some (base64Encode x) := by
      intro x
      simp [binary_to_base64, lookupFile_writeFile_self]
    have hn : ¬ (resp.status ≥ 400) := by omega
    simp [create_object_with_fields_impl, hb, zip_directory, hdir2, hb64, deploy, deployPre,
      h1, classifyDeployResponse, hn]
  · intro j sess fs resp hdir
    rcases hb : create_metadata_package j (appendFile fs myLogPath (dumpJVal (jsonObjToJVal j)))
      with ⟨fsB, r⟩
    rw [hb] at hdir
    have hdir2 : dirExists fsB currentPath = false := hdir
    simp [create_object_with_fields_impl, hb, zip_directory, hdir2]

/-- A metadata request with every value `None`. -/
def jNone : JsonObj :=
  { name := none, plural_name := none, description := none, api_name := none,
    fields := none }

/-- An Einstein request with only the model name set. -/
def jEinstein : EJsonObj :=
  { model_name := some (S "M"), description := none, model_capability := none,
    outcome_field := none, goal := none, data_source := none, success_value := none,
    failure_value := none, algorithm_type := none, fields := none }

/-- A filesystem holding the (empty) custom-object template directory, so the
build's `copytree` succeeds and creates the staging directory, while the
subsequent rename of the object descriptor fails — a suppressed build
failure that leaves the staging directory in place. -/
def fsAssets : FS :=
  { files := [], dirs := [[S "assets", S "create_object_tmpl"]] }

/-- C1 counterexample: on the empty filesystem the custom-object build
failure is suppressed as claimed, but the suppressed failure left no staging
directory, so the packaging step raises `FileNotFoundError` out of the
implementation — the caller does not receive the prepared-and-initiated
text. -/
theorem claim_build_error_asymmetry_counterexample :
    (create_metadata_package jNone
        (appendFile fsEmpty myLogPath (dumpJVal (jsonObjToJVal jNone)))).2 = .ok ()
    ∧ (create_object_with_fields_impl jNone (some emptySidSession) fsEmpty resp200).2
        = .error (S "FileNotFoundError: make_archive root_dir missing") :=
  ⟨rfl, rfl⟩

/-- Witness for C1: on the empty filesystem both bodies raise at `copytree`;
the custom-object build returns normally, logging the error, and the
packaging step then raises because the staging directory is missing; the
Einstein build re-raises the wrapped error.  On the `fsAssets` filesystem the
build fails at the rename but leaves the staging directory in place, and the
caller still receives the prepared-and-initiated text. -/
theorem claim_build_error_asymmetry_witness :
    (create_metadata_package jNone fsEmpty).2 = .ok ()
    ∧ create_metadata_package jNone fsEmpty
        = (appendFile fsEmpty checkTxtPath
            (S "An error occurred: " ++ S "FileNotFoundError: copytree source missing"),
           .ok ())
    ∧ create_einstein_model_package jEinstein fsEmpty
        = (appendFile
             { files := [],
               dirs := [[S "deployment_package"],
                        [S "deployment_package", S "appTemplates", S "M"]] }
             checkTxtPath
             (S "Error creating Einstein model package: "
               ++ S "FileNotFoundError: copytree source missing"),
           .error (S "Error creating Einstein model package: "
               ++ S "FileNotFoundError: copytree source missing"))
    ∧ (create_object_with_fields_impl jNone (some emptySidSession) fsAssets resp200).2
        = .ok (S "Custom Object \x27" ++ pyOptStr jNone.api_name
            ++ S "\x27 creation package prepared and deployment initiated.")
    ∧ (create_object_with_fields_impl jNone (some emptySidSession) fsEmpty resp200).2
        = .error (S "FileNotFoundError: make_archive root_dir missing") :=
  ⟨claim_build_error_asymmetry.1 jNone fsEmpty,
   claim_build_error_asymmetry.2.1 jNone fsEmpty fsEmpty
     (S "FileNotFoundError: copytree source missing") rfl,
   claim_build_error_asymmetry.2.2.1 jEinstein fsEmpty
     { files := [],
       dirs := [[S "deployment_package"], [S "deployment_package", S "appTemplates", S "M"]] }
     (S "FileNotFoundError: copytree source missing") rfl,
   claim_build_error_asymmetry.2.2.2.2.1 jNone emptySidSession fsAssets resp200
     (by decide) (by decide) (by decide),
   claim_build_error_asymmetry.2.2.2.2.2 jNone emptySidSession fsEmpty resp200
     (by decide)⟩

end SfdcMcp
